import Mathlib

/-!
# Verification of the PDFTable / BasicPDFFooter layout engine

A shallow embedding of `src/PDFTable.js` and `src/BasicPDFFooter.js`.

Modelling conventions:
* JavaScript numbers are modelled as `ℚ` (exact arithmetic; IEEE-754 rounding
  is abstracted away, the layout formulas are what is verified).
* A JavaScript value that may be `undefined`/`null` is modelled as an
  `Option`; `none` covers both `undefined` and `null` (the source never
  distinguishes them).
* The `||` fallback used pervasively by the source is modelled by the
  `jsOr*` helpers below, which reproduce JavaScript loose truthiness for the
  value types actually used (numbers, strings, booleans).
* The external drawing surface (the pdfkit document and the builder) is
  modelled by a `Surface` record of abstract functions: everything the engine
  reads from the surface is a parameter, everything it commands is recorded
  in an event trace (`Ev` / `FEv`).
-/

/-- JavaScript `v || d` for an optional number: `0` (and absence) is falsy. -/
def jsOrNum (v : Option ℚ) (d : ℚ) : ℚ :=
  match v with
  | none => d
  | some x => if x = 0 then d else x

/-- JavaScript `v || d` for an optional string: `""` (and absence) is falsy. -/
def jsOrStr (v : Option String) (d : String) : String :=
  match v with
  | none => d
  | some s => if s.length = 0 then d else s

/-- JavaScript `v || d` for an optional string with an optional default
(used for `row.borderStyle || this.cellBorderStyle` where the table-level
default is itself `undefined`). -/
def jsOrStrOpt (v : Option String) (d : Option String) : Option String :=
  match v with
  | none => d
  | some s => if s.length = 0 then d else some s

/-- JavaScript `v || d` for an optional boolean: `false` (and absence) is falsy. -/
def jsOrBool (v : Option Bool) (d : Bool) : Bool :=
  match v with
  | none => d
  | some b => b || d

/-- The emptiness test of `_addHeader` / `_addRow`:
`text === undefined || text === null || text.length < 1`. -/
def isEmptyText (t : Option String) : Bool :=
  match t with
  | none => true
  | some s => s.length < 1

/-- A cell specification (header or row), all fields optional, mirroring the
object literals accepted by `PDFTable`. -/
structure CellSpec where
  text : Option String := none
  align : Option String := none
  color : Option String := none
  font : Option String := none
  fontSize : Option ℚ := none
  italic : Option Bool := none
  borderColor : Option String := none
  borderStyle : Option String := none
  borderWidth : Option ℚ := none
  allowWrap : Option Bool := none
  emptyColor : Option String := none
  emptyFontSize : Option ℚ := none
  emptyItalic : Option Bool := none
  emptyText : Option String := none
deriving Repr, DecidableEq

/-- A column specification: `{ header, rows, width? }`. -/
structure ColumnSpec where
  header : CellSpec := {}
  rows : List CellSpec := []
  width : Option ℚ := none
deriving Repr, DecidableEq

/-- The `margins` option object. -/
structure Margins where
  bottom : ℚ := 30
  left : ℚ := 0
  right : ℚ := 0
  top : ℚ := 0
deriving Repr, DecidableEq

/-- The options object accepted by the `PDFTable` constructor.  The field
`cellBorderColor` is included in the option space because callers may pass
it, but the constructor never reads it (see C10). -/
structure TableOptions where
  cellAlign : Option String := none
  cellColor : Option String := none
  cellBorderColor : Option String := none
  cellBorderWidth : Option ℚ := none
  cellFont : Option String := none
  cellItalic : Option Bool := none
  cellFontSize : Option ℚ := none
  headerAlign : Option String := none
  headerColor : Option String := none
  headerBorderStyle : Option String := none
  headerBorderWidth : Option ℚ := none
  headerFont : Option String := none
  headerItalic : Option Bool := none
  headerFontSize : Option ℚ := none
  margins : Option Margins := none
  cellEmptyColor : Option String := none
  cellEmptyFontSize : Option ℚ := none
  cellEmptyItalic : Option Bool := none
  cellEmptyText : Option String := none
  headerEmptyColor : Option String := none
  headerEmptyFontSize : Option ℚ := none
  headerEmptyItalic : Option Bool := none
  headerEmptyText : Option String := none
  headerAllowWrap : Option Bool := none
  cellAllowWrap : Option Bool := none
deriving Repr, DecidableEq

/-- The table object after the constructor ran: every table-level default
resolved.  `cellBorderStyle` is carried as `Option String` because the
constructor never assigns `this.cellBorderStyle`, so it stays `undefined`
(`none`). -/
structure PDFTable where
  cellAlign : String
  cellColor : String
  cellBorderColor : String
  cellBorderWidth : ℚ
  cellFont : String
  cellItalic : Bool
  cellFontSize : ℚ
  headerAlign : String
  headerColor : String
  headerBorderColor : String
  headerBorderStyle : String
  headerBorderWidth : ℚ
  headerFont : String
  headerItalic : Bool
  headerFontSize : ℚ
  margins : Margins
  cellEmptyColor : String
  cellEmptyFontSize : ℚ
  cellEmptyItalic : Bool
  cellEmptyText : String
  headerEmptyColor : String
  headerEmptyFontSize : ℚ
  headerEmptyItalic : Bool
  headerEmptyText : String
  headerAllowWrap : Bool
  cellAllowWrap : Bool
  cellBorderStyle : Option String
  columns : List ColumnSpec
deriving Repr, DecidableEq

/-- The `PDFTable` constructor (source lines 79–111). -/
def mkTable (columns : List ColumnSpec) (options : TableOptions) : PDFTable :=
  let cellItalic := jsOrBool options.cellItalic false
  let cellFontSize := jsOrNum options.cellFontSize 14
  let headerItalic := jsOrBool options.headerItalic false
  let headerFontSize := jsOrNum options.headerFontSize 14
  { cellAlign := jsOrStr options.cellAlign "left"
    cellColor := jsOrStr options.cellColor "#222"
    cellBorderColor := jsOrStr options.headerColor "#ccc"
    cellBorderWidth := jsOrNum options.cellBorderWidth 1
    cellFont := jsOrStr options.cellFont "Helvetica"
    cellItalic := cellItalic
    cellFontSize := cellFontSize
    headerAlign := jsOrStr options.headerAlign "left"
    headerColor := jsOrStr options.headerColor "#000"
    headerBorderColor := jsOrStr options.headerColor "#000"
    headerBorderStyle := jsOrStr options.headerBorderStyle "bottom"
    headerBorderWidth := jsOrNum options.headerBorderWidth (3/2)
    headerFont := jsOrStr options.headerFont "Helvetica-Bold"
    headerItalic := headerItalic
    headerFontSize := headerFontSize
    margins := options.margins.getD {}
    cellEmptyColor := jsOrStr options.cellEmptyColor "#FFFFFF"
    cellEmptyFontSize := jsOrNum options.cellEmptyFontSize cellFontSize
    cellEmptyItalic := jsOrBool options.cellEmptyItalic cellItalic
    cellEmptyText := jsOrStr options.cellEmptyText "none"
    headerEmptyColor := jsOrStr options.headerEmptyColor "#FFFFFF"
    headerEmptyFontSize := jsOrNum options.headerEmptyFontSize headerFontSize
    headerEmptyItalic := jsOrBool options.headerEmptyItalic headerItalic
    headerEmptyText := jsOrStr options.headerEmptyText "none"
    headerAllowWrap := jsOrBool options.headerAllowWrap false
    cellAllowWrap := jsOrBool options.cellAllowWrap false
    cellBorderStyle := none
    columns := columns }

/-- Source `_headerLineGap` (source lines 334–337): computed from the raw
`header.fontSize || this.headerFontSize`, before any empty-text
substitution.  `1.2 = 6/5`. -/
def headerLineGap (T : PDFTable) (header : CellSpec) : ℚ :=
  jsOrNum header.fontSize T.headerFontSize * (6/5)

/-- Source `_rowLineGap` (source lines 339–342).  `1.07 = 107/100`. -/
def rowLineGap (T : PDFTable) (row : CellSpec) : ℚ :=
  jsOrNum row.fontSize T.cellFontSize * (107/100)

/-- The attributes `_addHeader` resolves before drawing. -/
structure ResolvedHeader where
  align : String
  borderColor : String
  borderWidth : ℚ
  color : String
  font : String
  italic : Bool
  fontSize : ℚ
  lineGap : ℚ
  text : String
  allowWrap : Bool
deriving Repr, DecidableEq

/-- The attributes `_addRow` resolves before drawing (rows additionally
resolve `borderStyle`, against the never-assigned `this.cellBorderStyle`). -/
structure ResolvedRow where
  align : String
  borderColor : String
  borderStyle : Option String
  borderWidth : ℚ
  color : String
  font : String
  italic : Bool
  fontSize : ℚ
  lineGap : ℚ
  text : String
  allowWrap : Bool
deriving Repr, DecidableEq

/-- Style resolution of `_addHeader` (source lines 172–198): each attribute
is `header.x || this.headerX`; if the text is empty the color/fontSize/italic/
text are replaced by the resolved empty-variant values. -/
def resolveHeader (T : PDFTable) (header : CellSpec) : ResolvedHeader :=
  let color := jsOrStr header.color T.headerColor
  let italic := jsOrBool header.italic T.headerItalic
  let fontSize := jsOrNum header.fontSize T.headerFontSize
  let emptyColor := jsOrStr header.emptyColor T.headerEmptyColor
  let emptyFontSize := jsOrNum header.emptyFontSize T.headerEmptyFontSize
  let emptyItalic := jsOrBool header.emptyItalic T.headerEmptyItalic
  let emptyText := jsOrStr header.emptyText T.headerEmptyText
  let empty := isEmptyText header.text
  { align := jsOrStr header.align T.headerAlign
    borderColor := jsOrStr header.borderColor T.headerBorderColor
    borderWidth := jsOrNum header.borderWidth T.headerBorderWidth
    color := if empty then emptyColor else color
    font := jsOrStr header.font T.headerFont
    italic := if empty then emptyItalic else italic
    fontSize := if empty then emptyFontSize else fontSize
    lineGap := headerLineGap T header
    text := if empty then emptyText else header.text.getD ""
    allowWrap := jsOrBool header.allowWrap T.headerAllowWrap }

/-- Style resolution of `_addRow` (source lines 246–271). -/
def resolveRow (T : PDFTable) (row : CellSpec) : ResolvedRow :=
  let color := jsOrStr row.color T.cellColor
  let italic := jsOrBool row.italic T.cellItalic
  let fontSize := jsOrNum row.fontSize T.cellFontSize
  let emptyColor := jsOrStr row.emptyColor T.cellEmptyColor
  let emptyFontSize := jsOrNum row.emptyFontSize T.cellEmptyFontSize
  let emptyItalic := jsOrBool row.emptyItalic T.cellEmptyItalic
  let emptyText := jsOrStr row.emptyText T.cellEmptyText
  let empty := isEmptyText row.text
  { align := jsOrStr row.align T.cellAlign
    borderColor := jsOrStr row.borderColor T.cellBorderColor
    borderStyle := jsOrStrOpt row.borderStyle T.cellBorderStyle
    borderWidth := jsOrNum row.borderWidth T.cellBorderWidth
    color := if empty then emptyColor else color
    font := jsOrStr row.font T.cellFont
    italic := if empty then emptyItalic else italic
    fontSize := if empty then emptyFontSize else fontSize
    lineGap := rowLineGap T row
    text := if empty then emptyText else row.text.getD ""
    allowWrap := jsOrBool row.allowWrap T.cellAllowWrap }

/-- The state of the pdfkit document the engine reads and writes:
implicit cursor, number of buffered pages, active page index. -/
structure DocState where
  x : ℚ
  y : ℚ
  pageCount : ℕ
  activePage : ℕ
deriving Repr, DecidableEq

/-- The abstract drawing surface (pdfkit document + builder).  Every query
the engine makes of the outside world is a field; the behaviour of external
commands on the document cursor is given by abstract functions:
`headerTextEnd d x y` is the document state after `doc.text(text, x, y, …)`,
`rowTextEnd d` after a positionless `doc.text(text, …)`, `afterPageBreak d`
after `builder.addPageIfNeeded` actually moved to a new page. -/
structure Surface where
  pageLeft : ℚ
  contentWidth : ℚ
  initDoc : DocState
  needNewPage : ℕ → ℕ → DocState → Bool
  afterPageBreak : DocState → DocState
  headerTextEnd : DocState → ℚ → ℚ → DocState
  rowTextEnd : DocState → DocState

/-- The mutable fields of the `PDFTable` instance during `addToPDF`. -/
structure EngineState where
  doc : DocState
  currentPage : ℕ
  curX : ℚ
  curY : ℚ
  startPage : ℕ
  startX : ℚ
  startY : ℚ
  columnWidth : ℚ
deriving Repr, DecidableEq

/-- Whether a stroke was issued from `_addHeader` or from `_addRow`. -/
inductive StrokeOrigin where
  | header
  | row
deriving Repr, DecidableEq

/-- The observable commands the engine issues to the surface. -/
inductive Ev where
  | switchPage (p : ℕ)
  | pageCheck (page count : ℕ) (result : Bool)
  | headerRender (x y : ℚ) (r : ResolvedHeader) (width : ℚ)
  | rowRender (r : ResolvedRow) (width : ℚ)
  | stroke (o : StrokeOrigin) (x y x2 y2 : ℚ) (lineWidth : ℚ) (color : String)
deriving Repr, DecidableEq

/-- Source `_columnWidth` (source lines 318–332). -/
def columnWidthCalc (T : PDFTable) (S : Surface) (width : Option ℚ) : ℚ :=
  if T.columns.length < 2 then S.contentWidth
  else
    match width with
    | none => S.contentWidth / (T.columns.length : ℚ)
    | some w => if w < 1 then S.contentWidth * w else w

/-- Source `_addHeader` (source lines 172–232): draw the header text at the tracked
cursor position, then stroke the under-header border at
`doc.y - fontSize * 0.85` (`0.85 = 17/20`). -/
def addHeader (S : Surface) (T : PDFTable) (E : EngineState) (col : ColumnSpec) :
    EngineState × List Ev :=
  let r := resolveHeader T col.header
  let d1 := S.headerTextEnd E.doc E.curX E.curY
  ({ E with doc := d1 },
   [Ev.headerRender E.curX E.curY r E.columnWidth,
    Ev.stroke StrokeOrigin.header d1.x (d1.y - r.fontSize * (17/20))
      (d1.x + E.columnWidth) (d1.y - r.fontSize * (17/20)) r.borderWidth r.borderColor])

/-- The state update of the page-break branch of `_addRow` (lines 240–244):
the builder added/switched page (`afterPageBreak`), `this.currentPage += 1`,
`this.currentPosition.y = doc.y`. -/
def breakState (S : Surface) (E : EngineState) : EngineState :=
  let d := S.afterPageBreak E.doc
  { E with doc := d, currentPage := E.currentPage + 1, curY := d.y }

/-- The draw commands of the second half of `_addRow` (lines 273–309): the
row text at the implicit cursor, then — unless the resolved border style is
`'none'` — one stroke at `doc.y - fontSize * 0.7` (`0.7 = 7/10`). -/
def rowDrawEvents (S : Surface) (T : PDFTable) (E : EngineState) (row : CellSpec) :
    List Ev :=
  let r := resolveRow T row
  let d1 := S.rowTextEnd E.doc
  Ev.rowRender r E.columnWidth ::
    (if r.borderStyle = some "none" then []
     else [Ev.stroke StrokeOrigin.row d1.x (d1.y - r.fontSize * (7/10))
       (d1.x + E.columnWidth) (d1.y - r.fontSize * (7/10)) r.borderWidth r.borderColor])

/-- Source `_addRow` (source lines 234–310): page check first, on a positive answer
repeat the header at the new page top, then draw the row. -/
def addRow (S : Surface) (T : PDFTable) (E : EngineState) (col : ColumnSpec)
    (row : CellSpec) : EngineState × List Ev :=
  let newPage := S.needNewPage E.currentPage E.doc.pageCount E.doc
  let E1 := if newPage then (addHeader S T (breakState S E) col).1 else E
  ({ E1 with doc := S.rowTextEnd E1.doc },
   Ev.pageCheck E.currentPage E.doc.pageCount newPage ::
     ((if newPage then (addHeader S T (breakState S E) col).2 else []) ++
       rowDrawEvents S T E1 row))

/-- The row loop of `_addColumn` (source lines 157–159). -/
def addRows (S : Surface) (T : PDFTable) (col : ColumnSpec) :
    EngineState → List CellSpec → EngineState × List Ev
  | E, [] => (E, [])
  | E, r :: rs =>
    let A := addRow S T E col r
    let B := addRows S T col A.1 rs
    (B.1, A.2 ++ B.2)

/-- Source `_addColumn` (source lines 150–163). -/
def addColumn (S : Surface) (T : PDFTable) (E : EngineState) (col : ColumnSpec) :
    EngineState × List Ev :=
  let E0 := { E with columnWidth := columnWidthCalc T S col.width }
  let H := addHeader S T E0 col
  let R := addRows S T col H.1 col.rows
  ({ R.1 with curX := R.1.curX + R.1.columnWidth }, H.2 ++ R.2)

/-- The per-column reset at the top of the `addToPDF` loop (lines 127–129):
`currentPage = startingPage`, `currentPosition.y = startingPosition.y`,
`doc.switchToPage(currentPage)`. -/
def resetForColumn (E : EngineState) : EngineState :=
  { E with currentPage := E.startPage, curY := E.startY,
           doc := { E.doc with activePage := E.startPage } }

/-- The column loop of `addToPDF` (source lines 126–131). -/
def columnsLoop (S : Surface) (T : PDFTable) :
    EngineState → List ColumnSpec → EngineState × List Ev
  | E, [] => (E, [])
  | E, c :: cs =>
    let A := addColumn S T (resetForColumn E) c
    let B := columnsLoop S T A.1 cs
    (B.1, Ev.switchPage E.startPage :: (A.2 ++ B.2))

/-- The engine state recorded at the top of `addToPDF` (lines 120–124). -/
def initEngineState (S : Surface) : EngineState :=
  { doc := S.initDoc
    currentPage := S.initDoc.pageCount - 1
    curX := S.pageLeft
    curY := S.initDoc.y
    startPage := S.initDoc.pageCount - 1
    startX := S.pageLeft
    startY := S.initDoc.y
    columnWidth := 0 }

/-- Source `addToPDF` (source lines 117–134): record start, loop over columns,
finally `doc.y += this.margins.bottom`. -/
def addToPDF (S : Surface) (T : PDFTable) : EngineState × List Ev :=
  let A := columnsLoop S T (initEngineState S) T.columns
  ({ A.1 with doc := { A.1.doc with y := A.1.doc.y + T.margins.bottom } }, A.2)

/-- The engine state from which column `i` of the loop is processed (before
the per-column reset). -/
def stateBeforeCol (S : Surface) (T : PDFTable) (E : EngineState)
    (cols : List ColumnSpec) (i : ℕ) : EngineState :=
  (columnsLoop S T E (cols.take i)).1

/-- Recognize header render events. -/
def isHeaderRenderEv : Ev → Bool
  | Ev.headerRender _ _ _ _ => true
  | _ => false

/-- Recognize row render events. -/
def isRowRenderEv : Ev → Bool
  | Ev.rowRender _ _ => true
  | _ => false

/-- Recognize page-check events. -/
def isPageCheckEv : Ev → Bool
  | Ev.pageCheck _ _ _ => true
  | _ => false

/-- Recognize page checks that reported a new page. -/
def isPosCheckEv : Ev → Bool
  | Ev.pageCheck _ _ r => r
  | _ => false

/-- Recognize strokes issued from `_addRow`. -/
def isRowStrokeEv : Ev → Bool
  | Ev.stroke StrokeOrigin.row _ _ _ _ _ _ => true
  | _ => false

/-- Number of header renders in a trace. -/
def hdrCount (evs : List Ev) : ℕ := evs.countP (fun e => isHeaderRenderEv e)

/-- Number of page checks in a trace. -/
def pcCount (evs : List Ev) : ℕ := evs.countP (fun e => isPageCheckEv e)

/-- Number of positive page checks in a trace. -/
def posCount (evs : List Ev) : ℕ := evs.countP (fun e => isPosCheckEv e)

/-- A footer data entry: a plain string line or a `{label, value}` pair
(the two renderable shapes of `addFooterData`). -/
inductive FooterEntry where
  | str (s : String)
  | pair (label value : String)
deriving Repr, DecidableEq

/-- The `data` constructor option: absent, a single entry (wrapped into an
array by the constructor) or an array of entries. -/
inductive DataOption where
  | noData
  | one (e : FooterEntry)
  | many (l : List FooterEntry)
deriving Repr, DecidableEq

/-- Options accepted by the `BasicPDFFooter` constructor. -/
structure FooterOptions where
  includePagination : Option Bool := none
  data : DataOption := DataOption.noData
deriving Repr, DecidableEq

/-- The `BasicPDFFooter` instance.  `currentPage` and `docTitle` are
overwritten by `onPageAdded` before any read; their constructor-time values
(`1`, `""`) stand in for the source's `1` / `undefined`. -/
structure BasicPDFFooter where
  includePagination : Bool
  currentPage : ℕ
  docTitle : String
  data : List FooterEntry
deriving Repr, DecidableEq

/-- The `BasicPDFFooter` constructor (source lines 2–15): pagination is on
unless the option is the exact value `false`; non-array data is wrapped. -/
def mkFooter (o : FooterOptions) : BasicPDFFooter :=
  { includePagination := !(o.includePagination == some false)
    currentPage := 1
    docTitle := ""
    data :=
      match o.data with
      | DataOption.noData => []
      | DataOption.one e => [e]
      | DataOption.many l => l }

/-- What the footer reads from the pdf builder in `onPageAdded`. -/
structure PdfBuilderState where
  pageWidth : ℚ
  pageHeight : ℚ
  marginLeft : ℚ
  marginRight : ℚ
  marginTop : ℚ
  marginBottom : ℚ
  currentPage : ℕ
  title : String
deriving Repr, DecidableEq

/-- A text draw command issued by the footer: text, optional explicit
position, the font and font size in effect, and the passed options. -/
inductive FEv where
  | draw (text : String) (pos : Option (ℚ × ℚ)) (font : String) (fontSize : ℚ)
      (lineBreak : Option Bool) (align : Option String) (width : Option ℚ)
deriving Repr, DecidableEq

/-- The loop body of `addFooterData` (source lines 25–43), parameterized by
the running `lineHeight` counter (an integer in the source, decremented per
rendered entry). -/
def footerLoop (marginLeft y0 : ℚ) : ℤ → List FooterEntry → List FEv
  | _, [] => []
  | lh, FooterEntry.str s :: rest =>
    FEv.draw s (some (marginLeft, y0 - (lh : ℚ) * 9)) "Helvetica" 9 none none none ::
      footerLoop marginLeft y0 (lh - 1) rest
  | lh, FooterEntry.pair label value :: rest =>
    FEv.draw (label ++ ":") (some (marginLeft, y0 - (lh : ℚ) * 9)) "Helvetica-Bold" 9
        (some false) none none ::
      FEv.draw value none "Helvetica" 9 none none none ::
        footerLoop marginLeft y0 (lh - 1) rest

/-- Source `addFooterData` (source lines 17–44): font Helvetica, size 9,
`lineHeight` starts at `data.length - 1`, each entry drawn at
`(height + margins.bottom) - lineHeight * 9`. -/
def addFooterData (F : BasicPDFFooter) (B : PdfBuilderState) (height : ℚ) : List FEv :=
  footerLoop B.marginLeft (height + B.marginBottom) ((F.data.length : ℤ) - 1) F.data

/-- The pagination text of `addPagination` (source lines 49–54). -/
def paginationText (title : String) (page : ℕ) : String :=
  if title.length > 0 then title ++ " - " ++ toString page else toString page

/-- Source `addPagination` (source lines 46–56): draw the pagination text at
`(margins.left, height + margins.bottom)` right-aligned within the content
width.  The font in effect is Helvetica (set by `addFooterData`, which always
runs first). -/
def addPagination (F : BasicPDFFooter) (B : PdfBuilderState) (width height : ℚ) :
    List FEv :=
  [FEv.draw (paginationText F.docTitle F.currentPage)
    (some (B.marginLeft, height + B.marginBottom)) "Helvetica" 9 none
    (some "right") (some width)]

/-- Source `onPageAdded` (source lines 58–68): capture content width/height, page
number and title, render the footer data, then the pagination if enabled. -/
def onPageAdded (F : BasicPDFFooter) (B : PdfBuilderState) :
    BasicPDFFooter × List FEv :=
  let width := B.pageWidth - B.marginLeft - B.marginRight
  let height := B.pageHeight - B.marginTop - B.marginBottom
  let F1 := { F with currentPage := B.currentPage, docTitle := B.title }
  (F1, addFooterData F1 B height ++
    (if F1.includePagination then addPagination F1 B width height else []))

/-- Modelled from the spec: the events a single footer entry produces when
placed at a given y — a plain string is a single span; a label/value pair is
the bold `label:` drawn without a line break, immediately followed by the
value in normal weight. -/
def specEntryEvents (marginLeft y : ℚ) : FooterEntry → List FEv
  | FooterEntry.str s => [FEv.draw s (some (marginLeft, y)) "Helvetica" 9 none none none]
  | FooterEntry.pair label value =>
    [FEv.draw (label ++ ":") (some (marginLeft, y)) "Helvetica-Bold" 9 (some false) none none,
     FEv.draw value none "Helvetica" 9 none none none]

/-- Modelled from the spec: entry `i` (0-based) of an `n`-entry footer data
sequence is placed at `y0 - (n - 1 - i) * 9`, so the last entry sits at `y0`
and each prior entry is one 9pt line above. -/
def specFooterLayout (marginLeft y0 : ℚ) (data : List FooterEntry) : List FEv :=
  (List.range data.length).flatMap fun i =>
    specEntryEvents marginLeft
      (y0 - ((((data.length : ℤ) - 1 - (i : ℤ)) : ℤ) : ℚ) * 9)
      (data.getD i (FooterEntry.str ""))

/-- Normalization of an optional number: an explicit falsy (`0`) value
becomes absent. -/
def normNum : Option ℚ → Option ℚ
  | some x => if x = 0 then none else some x
  | none => none

/-- Normalization of an optional string: an explicit falsy (`""`) value
becomes absent. -/
def normStr : Option String → Option String
  | some s => if s.length = 0 then none else some s
  | none => none

/-- Normalization of an optional boolean: an explicit falsy (`false`) value
becomes absent. -/
def normBool : Option Bool → Option Bool
  | some b => if b then some b else none
  | none => none

/-- Replace every explicitly-falsy field of a cell spec by an absent one. -/
def normCell (c : CellSpec) : CellSpec :=
  { text := normStr c.text
    align := normStr c.align
    color := normStr c.color
    font := normStr c.font
    fontSize := normNum c.fontSize
    italic := normBool c.italic
    borderColor := normStr c.borderColor
    borderStyle := normStr c.borderStyle
    borderWidth := normNum c.borderWidth
    allowWrap := normBool c.allowWrap
    emptyColor := normStr c.emptyColor
    emptyFontSize := normNum c.emptyFontSize
    emptyItalic := normBool c.emptyItalic
    emptyText := normStr c.emptyText }

/-- Replace every explicitly-falsy constructor option by an absent one. -/
def normOptions (o : TableOptions) : TableOptions :=
  { cellAlign := normStr o.cellAlign
    cellColor := normStr o.cellColor
    cellBorderColor := normStr o.cellBorderColor
    cellBorderWidth := normNum o.cellBorderWidth
    cellFont := normStr o.cellFont
    cellItalic := normBool o.cellItalic
    cellFontSize := normNum o.cellFontSize
    headerAlign := normStr o.headerAlign
    headerColor := normStr o.headerColor
    headerBorderStyle := normStr o.headerBorderStyle
    headerBorderWidth := normNum o.headerBorderWidth
    headerFont := normStr o.headerFont
    headerItalic := normBool o.headerItalic
    headerFontSize := normNum o.headerFontSize
    margins := o.margins
    cellEmptyColor := normStr o.cellEmptyColor
    cellEmptyFontSize := normNum o.cellEmptyFontSize
    cellEmptyItalic := normBool o.cellEmptyItalic
    cellEmptyText := normStr o.cellEmptyText
    headerEmptyColor := normStr o.headerEmptyColor
    headerEmptyFontSize := normNum o.headerEmptyFontSize
    headerEmptyItalic := normBool o.headerEmptyItalic
    headerEmptyText := normStr o.headerEmptyText
    headerAllowWrap := normBool o.headerAllowWrap
    cellAllowWrap := normBool o.cellAllowWrap }

/-- A concrete column for witnesses. -/
def tCol : ColumnSpec :=
  { header := { text := some "ID" }
    rows := [{ text := some "1" }, { text := some "2" }] }

/-- A second concrete column for witnesses. -/
def tCol2 : ColumnSpec :=
  { header := { text := some "Name" }
    rows := [{ text := some "Billy" }]
    width := some (1/4) }

/-- A concrete two-column table for witnesses. -/
def tTable : PDFTable := mkTable [tCol, tCol2] {}

/-- A concrete surface whose page-break query always answers `true`. -/
def tSurfT : Surface :=
  { pageLeft := 10
    contentWidth := 200
    initDoc := { x := 10, y := 50, pageCount := 1, activePage := 0 }
    needNewPage := fun _ _ _ => true
    afterPageBreak := fun d =>
      { d with pageCount := d.pageCount + 1, activePage := d.pageCount, y := 20 }
    headerTextEnd := fun d x y => { d with x := x, y := y + 17 }
    rowTextEnd := fun d => { d with y := d.y + 15 } }

/-- The same surface with the page-break query always answering `false`. -/
def tSurfF : Surface := { tSurfT with needNewPage := fun _ _ _ => false }

/-- A concrete engine state for witnesses. -/
def tE : EngineState := initEngineState tSurfT

/-- Concrete footer data for witnesses. -/
def tFooterData : List FooterEntry :=
  [FooterEntry.str "Generated 2024-01-01", FooterEntry.pair "Total" "42"]

/-- A concrete footer for witnesses. -/
def tFooter : BasicPDFFooter := mkFooter { data := DataOption.many tFooterData }

/-- A concrete pdf builder state for witnesses. -/
def tB : PdfBuilderState :=
  { pageWidth := 612, pageHeight := 792, marginLeft := 40, marginRight := 40,
    marginTop := 30, marginBottom := 30, currentPage := 3, title := "Report" }

theorem jsOrNum_norm (v : Option ℚ) (d : ℚ) : jsOrNum (normNum v) d = jsOrNum v d := by
  cases v with
  | none => rfl
  | some x =>
    by_cases hx : x = 0 <;> simp [normNum, jsOrNum, hx]

theorem jsOrStr_norm (v : Option String) (d : String) :
    jsOrStr (normStr v) d = jsOrStr v d := by
  cases v with
  | none => rfl
  | some s =>
    by_cases hs : s.length = 0 <;> simp [normStr, jsOrStr, hs]

theorem jsOrStrOpt_norm (v : Option String) (d : Option String) :
    jsOrStrOpt (normStr v) d = jsOrStrOpt v d := by
  cases v with
  | none => rfl
  | some s =>
    by_cases hs : s.length = 0 <;> simp [normStr, jsOrStrOpt, hs]

theorem jsOrBool_norm (v : Option Bool) (d : Bool) :
    jsOrBool (normBool v) d = jsOrBool v d := by
  cases v with
  | none => rfl
  | some b => cases b <;> simp [normBool, jsOrBool]

theorem isEmptyText_norm (t : Option String) : isEmptyText (normStr t) = isEmptyText t := by
  cases t with
  | none => rfl
  | some s =>
    by_cases hs : s.length = 0 <;> simp [normStr, isEmptyText, hs]

theorem normStr_getD_of_nonempty (t : Option String) (h : isEmptyText t = false) :
    (normStr t).getD "" = t.getD "" := by
  cases t with
  | none => simp [isEmptyText] at h
  | some s =>
    simp only [isEmptyText, decide_eq_false_iff_not, Nat.not_lt] at h
    have hs : ¬ s.length = 0 := by omega
    simp [normStr, hs]

/-- C5 (helper): falsy-normalizing a cell spec does not change header resolution. -/
theorem resolveHeader_norm (T : PDFTable) (c : CellSpec) :
    resolveHeader T (normCell c) = resolveHeader T c := by
  unfold resolveHeader
  simp only [normCell, jsOrNum_norm, jsOrStr_norm, jsOrBool_norm, isEmptyText_norm]
  cases ht : isEmptyText c.text with
  | false => simp [ht, normStr_getD_of_nonempty c.text ht, headerLineGap, normCell, jsOrNum_norm]
  | true => simp [ht, headerLineGap, normCell, jsOrNum_norm]

/-- C5 (helper): falsy-normalizing a cell spec does not change row resolution. -/
theorem resolveRow_norm (T : PDFTable) (c : CellSpec) :
    resolveRow T (normCell c) = resolveRow T c := by
  unfold resolveRow
  simp only [normCell, jsOrNum_norm, jsOrStr_norm, jsOrStrOpt_norm, jsOrBool_norm,
    isEmptyText_norm]
  cases ht : isEmptyText c.text with
  | false => simp [ht, normStr_getD_of_nonempty c.text ht, rowLineGap, normCell, jsOrNum_norm]
  | true => simp [ht, rowLineGap, normCell, jsOrNum_norm]

/-- C5 (helper): falsy-normalizing the constructor options does not change
the constructed table. -/
theorem mkTable_norm (cols : List ColumnSpec) (o : TableOptions) :
    mkTable cols (normOptions o) = mkTable cols o := by
  unfold mkTable
  simp only [normOptions, jsOrNum_norm, jsOrStr_norm, jsOrBool_norm]

/-- C5: an explicitly provided style override whose value is falsy
(`fontSize: 0`, `italic: false`, empty-string color, …) is treated by the
resolution exactly as an absent one — at the per-cell tier (headers and
rows) and at the constructor tier alike. -/
theorem C5_falsy_overrides (T : PDFTable) (c : CellSpec) (cols : List ColumnSpec)
    (o : TableOptions) :
    resolveHeader T (normCell c) = resolveHeader T c ∧
    resolveRow T (normCell c) = resolveRow T c ∧
    mkTable cols (normOptions o) = mkTable cols o :=
  ⟨resolveHeader_norm T c, resolveRow_norm T c, mkTable_norm cols o⟩

/-- C2: resolved column width — full content width for fewer than two
columns (any explicit width ignored); equal split when unset; fractional
share of the content width for `0 ≤ w < 1` (so `0` resolves to `0`); the
literal value for `w ≥ 1` (so exactly `1` is one absolute unit). -/
theorem C2_column_width (T : PDFTable) (S : Surface) :
    (T.columns.length < 2 → ∀ w : Option ℚ, columnWidthCalc T S w = S.contentWidth) ∧
    (2 ≤ T.columns.length →
      columnWidthCalc T S none = S.contentWidth / (T.columns.length : ℚ)) ∧
    (2 ≤ T.columns.length → ∀ w : ℚ, 0 ≤ w → w < 1 →
      columnWidthCalc T S (some w) = S.contentWidth * w) ∧
    (2 ≤ T.columns.length → ∀ w : ℚ, 1 ≤ w → columnWidthCalc T S (some w) = w) := by
  refine ⟨?_, ?_, ?_, ?_⟩
  · intro h w
    simp [columnWidthCalc, h]
  · intro h
    have h2 : ¬ T.columns.length < 2 := by omega
    simp [columnWidthCalc, h2]
  · intro h w _ hw1
    have h2 : ¬ T.columns.length < 2 := by omega
    simp [columnWidthCalc, h2, hw1]
  · intro h w hw
    have h2 : ¬ T.columns.length < 2 := by omega
    have hw1 : ¬ w < 1 := not_lt.mpr hw
    simp [columnWidthCalc, h2, hw1]

/-- C2 witness: concrete evaluations of the width resolution. -/
theorem C2_column_width_witness :
    columnWidthCalc tTable tSurfT (some (1/4)) = tSurfT.contentWidth * (1/4) :=
  (C2_column_width tTable tSurfT).2.2.1 (by decide) (1/4) (by norm_num) (by norm_num)

/-- C3: a header or row cell with undefined/null/zero-length text is drawn
with the resolved empty-variant color, fontSize, italic flag and text; a
cell with non-empty text is drawn with the non-empty resolved values. -/
theorem C3_empty_variant (T : PDFTable) (h r : CellSpec) :
    (isEmptyText h.text = true →
      (resolveHeader T h).color = jsOrStr h.emptyColor T.headerEmptyColor ∧
      (resolveHeader T h).fontSize = jsOrNum h.emptyFontSize T.headerEmptyFontSize ∧
      (resolveHeader T h).italic = jsOrBool h.emptyItalic T.headerEmptyItalic ∧
      (resolveHeader T h).text = jsOrStr h.emptyText T.headerEmptyText) ∧
    (isEmptyText h.text = false →
      (resolveHeader T h).color = jsOrStr h.color T.headerColor ∧
      (resolveHeader T h).fontSize = jsOrNum h.fontSize T.headerFontSize ∧
      (resolveHeader T h).italic = jsOrBool h.italic T.headerItalic ∧
      (resolveHeader T h).text = h.text.getD "") ∧
    (isEmptyText r.text = true →
      (resolveRow T r).color = jsOrStr r.emptyColor T.cellEmptyColor ∧
      (resolveRow T r).fontSize = jsOrNum r.emptyFontSize T.cellEmptyFontSize ∧
      (resolveRow T r).italic = jsOrBool r.emptyItalic T.cellEmptyItalic ∧
      (resolveRow T r).text = jsOrStr r.emptyText T.cellEmptyText) ∧
    (isEmptyText r.text = false →
      (resolveRow T r).color = jsOrStr r.color T.cellColor ∧
      (resolveRow T r).fontSize = jsOrNum r.fontSize T.cellFontSize ∧
      (resolveRow T r).italic = jsOrBool r.italic T.cellItalic ∧
      (resolveRow T r).text = r.text.getD "") := by
  refine ⟨?_, ?_, ?_, ?_⟩ <;> intro ht <;> simp [resolveHeader, resolveRow, ht]

/-- C3 witness: an all-default (hence empty-text) cell gets the empty-variant
attributes. -/
theorem C3_empty_variant_witness :
    (resolveHeader tTable {}).color = jsOrStr ({} : CellSpec).emptyColor tTable.headerEmptyColor ∧
    (resolveHeader tTable {}).fontSize =
      jsOrNum ({} : CellSpec).emptyFontSize tTable.headerEmptyFontSize ∧
    (resolveHeader tTable {}).italic =
      jsOrBool ({} : CellSpec).emptyItalic tTable.headerEmptyItalic ∧
    (resolveHeader tTable {}).text = jsOrStr ({} : CellSpec).emptyText tTable.headerEmptyText :=
  (C3_empty_variant tTable {} {}).1 rfl

/-- A table whose header-empty font size (28) differs from the header font
size default (14), used to separate the line gap from the empty-variant
resolved font size. -/
def c4Table : PDFTable := mkTable [{ header := {}, rows := [] }] { headerEmptyFontSize := some 28 }

/-- C4 counterexample: for an empty-text header the line gap is computed from
the pre-substitution font size (14 × 1.2), not from the resolved
(empty-variant) font size (28 × 1.2), so the claim fails as stated. -/
theorem C4_line_gap_counterexample :
    ¬ ((resolveHeader c4Table {}).lineGap = (resolveHeader c4Table {}).fontSize * (6/5)) := by
  norm_num [c4Table, mkTable, resolveHeader, headerLineGap, jsOrNum, isEmptyText]

/-- C4 (amended): the header line gap equals
`(header.fontSize || headerFontSize) × 1.2` and the row line gap equals
`(row.fontSize || cellFontSize) × 1.07` — the font size before empty-text
substitution.  Consequently the claimed `resolved fontSize × factor` holds
exactly when the cell text is non-empty. -/
theorem C4_line_gap (T : PDFTable) (h r : CellSpec) :
    (resolveHeader T h).lineGap = jsOrNum h.fontSize T.headerFontSize * (6/5) ∧
    (resolveRow T r).lineGap = jsOrNum r.fontSize T.cellFontSize * (107/100) ∧
    (isEmptyText h.text = false →
      (resolveHeader T h).lineGap = (resolveHeader T h).fontSize * (6/5)) ∧
    (isEmptyText r.text = false →
      (resolveRow T r).lineGap = (resolveRow T r).fontSize * (107/100)) := by
  refine ⟨rfl, rfl, ?_, ?_⟩ <;> intro ht <;>
    simp [resolveHeader, resolveRow, headerLineGap, rowLineGap, ht]

/-- C4 witness: for a non-empty cell the line gap does track the resolved
font size. -/
theorem C4_line_gap_witness :
    (resolveHeader tTable { text := some "x" }).lineGap =
      (resolveHeader tTable { text := some "x" }).fontSize * (6/5) :=
  (C4_line_gap tTable { text := some "x" } { text := some "x" }).2.2.1 rfl

theorem hdrCount_append (a b : List Ev) : hdrCount (a ++ b) = hdrCount a + hdrCount b :=
  List.countP_append _ _ _

theorem pcCount_append (a b : List Ev) : pcCount (a ++ b) = pcCount a + pcCount b :=
  List.countP_append _ _ _

theorem posCount_append (a b : List Ev) : posCount (a ++ b) = posCount a + posCount b :=
  List.countP_append _ _ _

theorem hdrCount_cons (e : Ev) (l : List Ev) :
    hdrCount (e :: l) = hdrCount l + (if isHeaderRenderEv e then 1 else 0) :=
  List.countP_cons _ _ _

theorem pcCount_cons (e : Ev) (l : List Ev) :
    pcCount (e :: l) = pcCount l + (if isPageCheckEv e then 1 else 0) :=
  List.countP_cons _ _ _

theorem posCount_cons (e : Ev) (l : List Ev) :
    posCount (e :: l) = posCount l + (if isPosCheckEv e then 1 else 0) :=
  List.countP_cons _ _ _

theorem addHeader_hdrCount (S : Surface) (T : PDFTable) (E : EngineState) (col : ColumnSpec) :
    hdrCount (addHeader S T E col).2 = 1 := by
  simp [addHeader, hdrCount, isHeaderRenderEv]

theorem addHeader_pcCount (S : Surface) (T : PDFTable) (E : EngineState) (col : ColumnSpec) :
    pcCount (addHeader S T E col).2 = 0 := by
  simp [addHeader, pcCount, isPageCheckEv]

theorem addHeader_posCount (S : Surface) (T : PDFTable) (E : EngineState) (col : ColumnSpec) :
    posCount (addHeader S T E col).2 = 0 := by
  simp [addHeader, posCount, isPosCheckEv]

theorem rowDraw_hdrCount (S : Surface) (T : PDFTable) (E : EngineState) (row : CellSpec) :
    hdrCount (rowDrawEvents S T E row) = 0 := by
  unfold rowDrawEvents
  by_cases hb : (resolveRow T row).borderStyle = some "none" <;>
    simp [hb, hdrCount, isHeaderRenderEv]

theorem rowDraw_pcCount (S : Surface) (T : PDFTable) (E : EngineState) (row : CellSpec) :
    pcCount (rowDrawEvents S T E row) = 0 := by
  unfold rowDrawEvents
  by_cases hb : (resolveRow T row).borderStyle = some "none" <;>
    simp [hb, pcCount, isPageCheckEv]

theorem rowDraw_posCount (S : Surface) (T : PDFTable) (E : EngineState) (row : CellSpec) :
    posCount (rowDrawEvents S T E row) = 0 := by
  unfold rowDrawEvents
  by_cases hb : (resolveRow T row).borderStyle = some "none" <;>
    simp [hb, posCount, isPosCheckEv]

theorem addRow_hdrCount (S : Surface) (T : PDFTable) (E : EngineState) (col : ColumnSpec)
    (row : CellSpec) :
    hdrCount (addRow S T E col row).2 =
      (if S.needNewPage E.currentPage E.doc.pageCount E.doc then 1 else 0) := by
  cases hn : S.needNewPage E.currentPage E.doc.pageCount E.doc <;>
    simp [addRow, hn, hdrCount_append, hdrCount_cons, isHeaderRenderEv,
      addHeader_hdrCount, rowDraw_hdrCount]

theorem addRow_posCount (S : Surface) (T : PDFTable) (E : EngineState) (col : ColumnSpec)
    (row : CellSpec) :
    posCount (addRow S T E col row).2 =
      (if S.needNewPage E.currentPage E.doc.pageCount E.doc then 1 else 0) := by
  cases hn : S.needNewPage E.currentPage E.doc.pageCount E.doc <;>
    simp [addRow, hn, posCount_append, posCount_cons, isPosCheckEv,
      addHeader_posCount, rowDraw_posCount]

theorem addRow_pcCount (S : Surface) (T : PDFTable) (E : EngineState) (col : ColumnSpec)
    (row : CellSpec) :
    pcCount (addRow S T E col row).2 = 1 := by
  cases hn : S.needNewPage E.currentPage E.doc.pageCount E.doc <;>
    simp [addRow, hn, pcCount_append, pcCount_cons, isPageCheckEv,
      addHeader_pcCount, rowDraw_pcCount]

theorem addRows_hdr_eq_pos (S : Surface) (T : PDFTable) (col : ColumnSpec) :
    ∀ (rs : List CellSpec) (E : EngineState),
      hdrCount (addRows S T col E rs).2 = posCount (addRows S T col E rs).2 := by
  intro rs
  induction rs with
  | nil => intro E; rfl
  | cons r rest ih =>
    intro E
    show hdrCount ((addRow S T E col r).2 ++ (addRows S T col (addRow S T E col r).1 rest).2) =
      posCount ((addRow S T E col r).2 ++ (addRows S T col (addRow S T E col r).1 rest).2)
    rw [hdrCount_append, posCount_append, addRow_hdrCount, addRow_posCount,
      ih (addRow S T E col r).1]

theorem addRows_takeWhile (S : Surface) (T : PDFTable) (col : ColumnSpec) :
    ∀ (rs : List CellSpec) (E : EngineState),
      (addRows S T col E rs).2.takeWhile (fun e => !(isPageCheckEv e)) = [] := by
  intro rs
  cases rs with
  | nil => intro E; rfl
  | cons r rest =>
    intro E
    cases hn : S.needNewPage E.currentPage E.doc.pageCount E.doc <;>
      simp [addRows, addRow, hn, List.takeWhile_cons, isPageCheckEv]

theorem isPageCheckEv_headerRender (x y : ℚ) (r : ResolvedHeader) (w : ℚ) :
    isPageCheckEv (Ev.headerRender x y r w) = false := rfl

theorem isPageCheckEv_stroke (o : StrokeOrigin) (a b c d lw : ℚ) (s : String) :
    isPageCheckEv (Ev.stroke o a b c d lw s) = false := rfl

/-- C1: per column exactly one header render precedes the page checks of the
rows (and header renders total one plus the positive checks); `_addHeader`
performs no page check; each row performs exactly one; a positive check
inserts exactly one header render — at the unchanged x and the surface's
new-page y — before the row's draw events; a negative check inserts none. -/
theorem C1_header_repetition (S : Surface) (T : PDFTable) (E : EngineState)
    (col : ColumnSpec) (row : CellSpec) :
    (hdrCount (addColumn S T E col).2 = 1 + posCount (addColumn S T E col).2) ∧
    (hdrCount ((addColumn S T E col).2.takeWhile (fun e => !(isPageCheckEv e))) = 1) ∧
    (pcCount (addHeader S T E col).2 = 0) ∧
    (pcCount (addRow S T E col row).2 = 1) ∧
    (S.needNewPage E.currentPage E.doc.pageCount E.doc = true →
      (addRow S T E col row).2 =
        Ev.pageCheck E.currentPage E.doc.pageCount true ::
          ((addHeader S T (breakState S E) col).2 ++
            rowDrawEvents S T (addHeader S T (breakState S E) col).1 row) ∧
      (breakState S E).curY = (S.afterPageBreak E.doc).y ∧
      (addHeader S T (breakState S E) col).2.head? =
        some (Ev.headerRender E.curX (S.afterPageBreak E.doc).y
          (resolveHeader T col.header) E.columnWidth)) ∧
    (S.needNewPage E.currentPage E.doc.pageCount E.doc = false →
      hdrCount (addRow S T E col row).2 = 0) := by
  refine ⟨?_, ?_, addHeader_pcCount S T E col, addRow_pcCount S T E col row, ?_, ?_⟩
  · show hdrCount ((addHeader S T { E with columnWidth := columnWidthCalc T S col.width } col).2 ++
      (addRows S T col (addHeader S T { E with columnWidth := columnWidthCalc T S col.width } col).1 col.rows).2) =
      1 + posCount ((addHeader S T { E with columnWidth := columnWidthCalc T S col.width } col).2 ++
        (addRows S T col (addHeader S T { E with columnWidth := columnWidthCalc T S col.width } col).1 col.rows).2)
    rw [hdrCount_append, posCount_append, addHeader_hdrCount, addHeader_posCount,
      addRows_hdr_eq_pos]
    omega
  · show hdrCount (((addHeader S T { E with columnWidth := columnWidthCalc T S col.width } col).2 ++
      (addRows S T col (addHeader S T { E with columnWidth := columnWidthCalc T S col.width } col).1 col.rows).2).takeWhile
        (fun e => !(isPageCheckEv e))) = 1
    rw [addHeader]
    simp only [List.cons_append, List.nil_append, List.takeWhile_cons,
      isPageCheckEv_headerRender, isPageCheckEv_stroke, Bool.not_false, if_true,
      addRows_takeWhile]
    simp [hdrCount, isHeaderRenderEv]
  · intro hn
    refine ⟨?_, rfl, ?_⟩
    · simp [addRow, hn]
    · simp [addHeader, breakState]
  · intro hn
    simp [addRow_hdrCount, hn]

/-- C1 witness: with a surface that never requests a page break, a row render
repeats no header. -/
theorem C1_header_repetition_witness :
    hdrCount (addRow tSurfF tTable tE tCol { text := some "1" }).2 = 0 :=
  (C1_header_repetition tSurfF tTable tE tCol { text := some "1" }).2.2.2.2.2 rfl

theorem addRow_rowStroke (S : Surface) (T : PDFTable) (E : EngineState) (col : ColumnSpec)
    (row : CellSpec) :
    (addRow S T E col row).2.filter (fun e => isRowStrokeEv e) =
      (if (resolveRow T row).borderStyle = some "none" then []
       else [Ev.stroke StrokeOrigin.row (addRow S T E col row).1.doc.x
          ((addRow S T E col row).1.doc.y - (resolveRow T row).fontSize * (7/10))
          ((addRow S T E col row).1.doc.x + E.columnWidth)
          ((addRow S T E col row).1.doc.y - (resolveRow T row).fontSize * (7/10))
          (resolveRow T row).borderWidth (resolveRow T row).borderColor]) := by
  by_cases hb : (resolveRow T row).borderStyle = some "none" <;>
    cases hn : S.needNewPage E.currentPage E.doc.pageCount E.doc <;>
      simp [addRow, addHeader, breakState, rowDrawEvents, hn, hb, isRowStrokeEv]

/-- C6: a row whose resolved border style is `'none'` strokes nothing; any
other resolved border style (including the unset default) strokes exactly
once, at `doc.y - fontSize × 0.7`, spanning the column width, with the
resolved border width and color. -/
theorem C6_row_border (S : Surface) (T : PDFTable) (E : EngineState) (col : ColumnSpec)
    (row : CellSpec) :
    ((resolveRow T row).borderStyle = some "none" →
      (addRow S T E col row).2.filter (fun e => isRowStrokeEv e) = []) ∧
    ((resolveRow T row).borderStyle ≠ some "none" →
      (addRow S T E col row).2.filter (fun e => isRowStrokeEv e) =
        [Ev.stroke StrokeOrigin.row (addRow S T E col row).1.doc.x
          ((addRow S T E col row).1.doc.y - (resolveRow T row).fontSize * (7/10))
          ((addRow S T E col row).1.doc.x + E.columnWidth)
          ((addRow S T E col row).1.doc.y - (resolveRow T row).fontSize * (7/10))
          (resolveRow T row).borderWidth (resolveRow T row).borderColor]) := by
  constructor <;> intro hb <;> simp [addRow_rowStroke, hb]

/-- C6 witness: a concrete row with `borderStyle: 'none'` produces no row
stroke. -/
theorem C6_row_border_witness :
    (addRow tSurfF tTable tE tCol { borderStyle := some "none" }).2.filter
      (fun e => isRowStrokeEv e) = [] :=
  (C6_row_border tSurfF tTable tE tCol { borderStyle := some "none" }).1 (by
    simp [resolveRow, tTable, mkTable, jsOrStrOpt]
    decide)

theorem addHeader_pres (S : Surface) (T : PDFTable) (E : EngineState) (col : ColumnSpec) :
    (addHeader S T E col).1.curX = E.curX ∧
      (addHeader S T E col).1.startPage = E.startPage ∧
      (addHeader S T E col).1.startY = E.startY ∧
      (addHeader S T E col).1.columnWidth = E.columnWidth := by
  simp [addHeader]

theorem addRow_pres (S : Surface) (T : PDFTable) (E : EngineState) (col : ColumnSpec)
    (row : CellSpec) :
    (addRow S T E col row).1.curX = E.curX ∧
      (addRow S T E col row).1.startPage = E.startPage ∧
      (addRow S T E col row).1.startY = E.startY ∧
      (addRow S T E col row).1.columnWidth = E.columnWidth := by
  cases hn : S.needNewPage E.currentPage E.doc.pageCount E.doc <;>
    simp [addRow, addHeader, breakState, hn]

theorem addRows_pres (S : Surface) (T : PDFTable) (col : ColumnSpec) :
    ∀ (rs : List CellSpec) (E : EngineState),
      (addRows S T col E rs).1.curX = E.curX ∧
        (addRows S T col E rs).1.startPage = E.startPage ∧
        (addRows S T col E rs).1.startY = E.startY ∧
        (addRows S T col E rs).1.columnWidth = E.columnWidth := by
  intro rs
  induction rs with
  | nil => intro E; exact ⟨rfl, rfl, rfl, rfl⟩
  | cons r rest ih =>
    intro E
    have h1 := addRow_pres S T E col r
    have h2 := ih (addRow S T E col r).1
    exact ⟨h2.1.trans h1.1, h2.2.1.trans h1.2.1, h2.2.2.1.trans h1.2.2.1,
      h2.2.2.2.trans h1.2.2.2⟩

theorem addColumn_pres (S : Surface) (T : PDFTable) (E : EngineState) (col : ColumnSpec) :
    (addColumn S T E col).1.curX = E.curX + columnWidthCalc T S col.width ∧
      (addColumn S T E col).1.startPage = E.startPage ∧
      (addColumn S T E col).1.startY = E.startY := by
  have hh := addHeader_pres S T { E with columnWidth := columnWidthCalc T S col.width } col
  have hr := addRows_pres S T col col.rows
    (addHeader S T { E with columnWidth := columnWidthCalc T S col.width } col).1
  refine ⟨?_, ?_, ?_⟩
  · show (addRows S T col (addHeader S T { E with columnWidth := columnWidthCalc T S col.width } col).1 col.rows).1.curX +
      (addRows S T col (addHeader S T { E with columnWidth := columnWidthCalc T S col.width } col).1 col.rows).1.columnWidth =
      E.curX + columnWidthCalc T S col.width
    rw [hr.1, hh.1, hr.2.2.2, hh.2.2.2]
  · exact hr.2.1.trans hh.2.1
  · exact hr.2.2.1.trans hh.2.2.1

theorem columnsLoop_pres (S : Surface) (T : PDFTable) :
    ∀ (cols : List ColumnSpec) (E : EngineState),
      (columnsLoop S T E cols).1.startPage = E.startPage ∧
        (columnsLoop S T E cols).1.startY = E.startY := by
  intro cols
  induction cols with
  | nil => intro E; exact ⟨rfl, rfl⟩
  | cons c rest ih =>
    intro E
    have h1 := addColumn_pres S T (resetForColumn E) c
    have h2 := ih (addColumn S T (resetForColumn E) c).1
    exact ⟨h2.1.trans h1.2.1, h2.2.trans h1.2.2⟩

theorem columnsLoop_curX (S : Surface) (T : PDFTable) :
    ∀ (cols : List ColumnSpec) (E : EngineState),
      (columnsLoop S T E cols).1.curX =
        E.curX + (cols.map (fun c => columnWidthCalc T S c.width)).sum := by
  intro cols
  induction cols with
  | nil => intro E; simp [columnsLoop]
  | cons c rest ih =>
    intro E
    have h1 := (addColumn_pres S T (resetForColumn E) c).1
    show (columnsLoop S T (addColumn S T (resetForColumn E) c).1 rest).1.curX = _
    rw [ih, h1]
    show (resetForColumn E).curX + _ + _ = _
    simp [resetForColumn]
    ring

theorem columnsLoop_append_fst (S : Surface) (T : PDFTable) :
    ∀ (l1 l2 : List ColumnSpec) (E : EngineState),
      (columnsLoop S T E (l1 ++ l2)).1 = (columnsLoop S T (columnsLoop S T E l1).1 l2).1 := by
  intro l1
  induction l1 with
  | nil => intro l2 E; rfl
  | cons c rest ih =>
    intro l2 E
    show (columnsLoop S T (addColumn S T (resetForColumn E) c).1 (rest ++ l2)).1 = _
    rw [ih]
    rfl

theorem stateBeforeCol_succ (S : Surface) (T : PDFTable) (E : EngineState)
    (cols : List ColumnSpec) (i : ℕ) (h : i < cols.length) :
    stateBeforeCol S T E cols (i + 1) =
      (addColumn S T (resetForColumn (stateBeforeCol S T E cols i)) (cols.get ⟨i, h⟩)).1 := by
  unfold stateBeforeCol
  rw [List.take_succ, List.getElem?_eq_getElem h, Option.toList_some,
    columnsLoop_append_fst]
  show (columnsLoop S T (addColumn S T (resetForColumn (columnsLoop S T E (cols.take i)).1) (cols[i])).1 []).1 = _
  simp [columnsLoop, List.get_eq_getElem]

/-- C7: at the start of every column the engine state is reset to the
recorded starting page (with the surface switched back to that page) and the
recorded starting y, while x is not reset; processing column `i` advances x
by exactly that column's resolved width, and over a whole loop x accumulates
the sum of the resolved widths. -/
theorem C7_column_reset (S : Surface) (T : PDFTable) (E : EngineState)
    (cols : List ColumnSpec) (i : ℕ) (h : i < cols.length) :
    (resetForColumn (stateBeforeCol S T E cols i)).currentPage = E.startPage ∧
    (resetForColumn (stateBeforeCol S T E cols i)).curY = E.startY ∧
    (resetForColumn (stateBeforeCol S T E cols i)).doc.activePage = E.startPage ∧
    (resetForColumn (stateBeforeCol S T E cols i)).curX = (stateBeforeCol S T E cols i).curX ∧
    (stateBeforeCol S T E cols (i + 1) =
      (addColumn S T (resetForColumn (stateBeforeCol S T E cols i)) (cols.get ⟨i, h⟩)).1) ∧
    ((stateBeforeCol S T E cols (i + 1)).curX =
      (stateBeforeCol S T E cols i).curX + columnWidthCalc T S (cols.get ⟨i, h⟩).width) ∧
    (∀ (c : ColumnSpec) (cs : List ColumnSpec) (E2 : EngineState),
      ((columnsLoop S T E2 (c :: cs)).2).head? = some (Ev.switchPage E2.startPage)) ∧
    ((columnsLoop S T E cols).1.curX =
      E.curX + (cols.map (fun c => columnWidthCalc T S c.width)).sum) := by
  have hpres := columnsLoop_pres S T (cols.take i) E
  refine ⟨?_, ?_, ?_, rfl, stateBeforeCol_succ S T E cols i h, ?_, ?_, columnsLoop_curX S T cols E⟩
  · show (stateBeforeCol S T E cols i).startPage = E.startPage
    exact hpres.1
  · show (stateBeforeCol S T E cols i).startY = E.startY
    exact hpres.2
  · show (stateBeforeCol S T E cols i).startPage = E.startPage
    exact hpres.1
  · rw [stateBeforeCol_succ S T E cols i h,
      (addColumn_pres S T (resetForColumn (stateBeforeCol S T E cols i)) (cols.get ⟨i, h⟩)).1]
    rfl
  · intro c cs E2
    rfl

/-- C7 witness: concrete reset of the second column of a two-column table. -/
theorem C7_column_reset_witness :
    (resetForColumn (stateBeforeCol tSurfF tTable tE [tCol, tCol2] 1)).curY = tE.startY :=
  (C7_column_reset tSurfF tTable tE [tCol, tCol2] 1 (by decide)).2.1

theorem footerLoop_spec (ml y0 : ℚ) :
    ∀ (data : List FooterEntry) (lh : ℤ),
      footerLoop ml y0 lh data =
        (List.range data.length).flatMap fun i =>
          specEntryEvents ml (y0 - ((lh - (i : ℤ) : ℤ) : ℚ) * 9)
            (data.getD i (FooterEntry.str "")) := by
  intro data
  induction data with
  | nil => intro lh; rfl
  | cons e rest ih =>
    intro lh
    have hmap : ∀ (f : ℕ → List FEv),
        ((List.range rest.length).map Nat.succ).flatMap f =
          (List.range rest.length).flatMap (fun i => f (i + 1)) := by
      intro f
      induction (List.range rest.length) with
      | nil => rfl
      | cons a t iht => simp [List.flatMap_cons, iht]
    have hidx : ∀ i : ℕ, ((lh - ((i + 1 : ℕ) : ℤ) : ℤ) : ℚ) = ((lh - 1 - (i : ℤ) : ℤ) : ℚ) := by
      intro i
      push_cast
      ring
    have hcast : ((lh - ((0 : ℕ) : ℤ) : ℤ) : ℚ) = ((lh : ℤ) : ℚ) := by
      push_cast
      ring
    cases e with
    | str s =>
      rw [footerLoop, ih (lh - 1)]
      simp only [List.length_cons, List.range_succ_eq_map, List.flatMap_cons, hmap,
        List.getD_cons_succ, hidx, List.nil_append]
      simp [specEntryEvents, hcast]
    | pair label value =>
      rw [footerLoop, ih (lh - 1)]
      simp only [List.length_cons, List.range_succ_eq_map, List.flatMap_cons, hmap,
        List.getD_cons_succ, hidx, List.nil_append]
      simp [specEntryEvents, hcast]

theorem addFooterData_spec (F : BasicPDFFooter) (B : PdfBuilderState) (h : ℚ) :
    addFooterData F B h = specFooterLayout B.marginLeft (h + B.marginBottom) F.data := by
  rw [addFooterData, footerLoop_spec]
  rfl

/-- C9: footer entries stack bottom-up — entry `i` of `n` sits at
`(contentHeight + bottomMargin) - (n - 1 - i) × 9` — with a plain string as
one span and a label/value pair as a bold `label:` (no line break) followed
by the normal-weight value, exactly as the spec-modelled layout states. -/
theorem C9_footer_stacking (F : BasicPDFFooter) (B : PdfBuilderState) (h : ℚ) :
    addFooterData F B h = specFooterLayout B.marginLeft (h + B.marginBottom) F.data ∧
    (onPageAdded F B).2 =
      specFooterLayout B.marginLeft
          ((B.pageHeight - B.marginTop - B.marginBottom) + B.marginBottom) F.data ++
        (if F.includePagination then
          addPagination (onPageAdded F B).1 B (B.pageWidth - B.marginLeft - B.marginRight)
            (B.pageHeight - B.marginTop - B.marginBottom)
        else []) := by
  refine ⟨addFooterData_spec F B h, ?_⟩
  show addFooterData { F with currentPage := B.currentPage, docTitle := B.title } B
      (B.pageHeight - B.marginTop - B.marginBottom) ++ _ = _
  rw [addFooterData_spec]
  rfl

/-- C8: the pagination text is `"{title} - {page}"` for a non-empty title
and just the page counter otherwise; with pagination enabled it is drawn
right-aligned within the content width one line position above the bottom
margin; the constructor enables pagination unless the option is exactly
`false`. -/
theorem C8_pagination (F : BasicPDFFooter) (B : PdfBuilderState) (o : FooterOptions)
    (w h : ℚ) (title : String) (page : ℕ) :
    (title.length > 0 → paginationText title page = title ++ " - " ++ toString page) ∧
    (title.length = 0 → paginationText title page = toString page) ∧
    (addPagination F B w h =
      [FEv.draw (paginationText F.docTitle F.currentPage)
        (some (B.marginLeft, h + B.marginBottom)) "Helvetica" 9 none
        (some "right") (some w)]) ∧
    ((onPageAdded F B).1.docTitle = B.title ∧
      (onPageAdded F B).1.currentPage = B.currentPage) ∧
    (F.includePagination = true →
      (onPageAdded F B).2 =
        addFooterData (onPageAdded F B).1 B (B.pageHeight - B.marginTop - B.marginBottom) ++
          addPagination (onPageAdded F B).1 B (B.pageWidth - B.marginLeft - B.marginRight)
            (B.pageHeight - B.marginTop - B.marginBottom)) ∧
    (F.includePagination = false →
      (onPageAdded F B).2 =
        addFooterData (onPageAdded F B).1 B (B.pageHeight - B.marginTop - B.marginBottom)) ∧
    ((mkFooter o).includePagination = false ↔ o.includePagination = some false) := by
  refine ⟨?_, ?_, rfl, ⟨rfl, rfl⟩, ?_, ?_, ?_⟩
  · intro ht
    simp [paginationText, ht]
  · intro ht
    simp [paginationText, ht]
  · intro hp
    simp [onPageAdded, hp]
  · intro hp
    simp [onPageAdded, hp]
  · cases hio : o.includePagination with
    | none => simp [mkFooter, hio]
    | some b => cases b <;> simp [mkFooter, hio]

/-- C8 witness: concrete pagination text for title `"Report"`, page 3. -/
theorem C8_pagination_witness :
    paginationText "Report" 3 = "Report" ++ " - " ++ toString 3 :=
  (C8_pagination tFooter tB {} 0 0 "Report" 3).1 (by decide)

/-- C10: the table-level row border color default is
`options.headerColor || '#ccc'` — the `cellBorderColor` option is ignored —
so a row without its own `borderColor` strokes in the header color (or
`#ccc`); no `cellBorderStyle` table default exists, so a row with unset
`borderStyle` always gets exactly one border stroke. -/
theorem C10_row_border_defaults (cols : List ColumnSpec) (o : TableOptions)
    (x : Option String) (row : CellSpec) (S : Surface) (E : EngineState)
    (col : ColumnSpec) :
    ((mkTable cols o).cellBorderColor = jsOrStr o.headerColor "#ccc") ∧
    ((mkTable cols { o with cellBorderColor := x }).cellBorderColor =
      jsOrStr o.headerColor "#ccc") ∧
    (o.headerColor = none → (mkTable cols o).cellBorderColor = "#ccc") ∧
    (row.borderColor = none →
      (resolveRow (mkTable cols o) row).borderColor = jsOrStr o.headerColor "#ccc") ∧
    ((mkTable cols o).cellBorderStyle = none) ∧
    (row.borderStyle = none → (resolveRow (mkTable cols o) row).borderStyle = none) ∧
    (row.borderStyle = none →
      ((addRow S (mkTable cols o) E col row).2.filter
        (fun e => isRowStrokeEv e)).length = 1) := by
  have hstyle : row.borderStyle = none → (resolveRow (mkTable cols o) row).borderStyle = none := by
    intro hb
    simp [resolveRow, mkTable, hb, jsOrStrOpt]
  refine ⟨rfl, rfl, ?_, ?_, rfl, hstyle, ?_⟩
  · intro hc
    simp [mkTable, hc, jsOrStr]
  · intro hb
    simp [resolveRow, mkTable, hb, jsOrStr]
  · intro hb
    rw [addRow_rowStroke]
    simp [hstyle hb]

/-- C10 witness: a concrete row with no border options gets exactly one
stroke. -/
theorem C10_row_border_defaults_witness :
    ((addRow tSurfF (mkTable [tCol, tCol2] {}) tE tCol { text := some "1" }).2.filter
      (fun e => isRowStrokeEv e)).length = 1 :=
  (C10_row_border_defaults [tCol, tCol2] {} none { text := some "1" } tSurfF tE tCol).2.2.2.2.2.2
    rfl
